import Mathlib

/-!
Shallow embedding of `fly_server.py` (ticktick-mcp): credential resolution,
lazy client singleton, task fetch / filter / render pipeline, and the tool
surface that converts every outcome into a plain text string.

Python dict-shaped records are modelled as structures with `Option` fields
(`none` = key absent); Python truthiness of strings (`""` falsy) is made
explicit at every use site, mirroring the source line by line.  Python's
`str.lower` and single-character `str.replace` are modelled at the
character-list level so that every definition evaluates inside the kernel.
-/

namespace TickTick

/-- Python `needle in hay` prefix step: does `hay` start with `n`? -/
def chPre : List Char → List Char → Bool
  | [], _ => true
  | _ :: _, [] => false
  | a :: as, b :: bs => a == b && chPre as bs

/-- Python `n in hay` on strings, as character lists: `n` occurs as a
contiguous substring of `hay` (the empty needle always occurs). -/
def chSub (n : List Char) : List Char → Bool
  | [] => n.isEmpty
  | b :: bs => chPre n (b :: bs) || chSub n bs

/-- Python `needle in hay` for strings. -/
def strContains (hay needle : String) : Bool :=
  chSub needle.data hay.data

/-- Python `s.lower()` (ASCII-faithful). -/
def pyLower (s : String) : String :=
  ⟨s.data.map Char.toLower⟩

/-- Python `s.replace('Z', '+00:00')`: every occurrence of the character
`Z` is replaced, exactly as at the single call site in the source. -/
def replaceZ (s : String) : String :=
  ⟨(s.data.map fun c => if c == 'Z' then "+00:00".data else [c]).flatten⟩

/-- A subtask item of a task (`task['items'][i]`). -/
structure Subtask where
  title : Option String
  status : Option Int
deriving DecidableEq, Repr

/-- A task record as consumed by `fly_server.py`. -/
structure Task where
  title : Option String
  id : Option String
  projectId : Option String
  status : Option Int
  priority : Option Int
  content : Option String
  dueDate : Option String
  startDate : Option String
  tags : List String
  items : List Subtask
deriving DecidableEq, Repr

/-- A project record as consumed by `format_project`. -/
structure Project where
  name : Option String
  id : Option String
  color : Option String
  viewMode : Option String
  closed : Option Bool
  kind : Option String
deriving DecidableEq, Repr

/-- The `TickTickClient` object: a stateless wrapper around one bearer token. -/
structure Client where
  token : String
deriving DecidableEq, Repr

/-- The ambient identity of `get_identity()`: `access_token = some t` models an
identity object carrying the `access_token` attribute with value `t`;
`none` models `hasattr(identity, 'access_token')` being false. -/
structure Identity where
  access_token : Option String
deriving DecidableEq, Repr

/-- Python `x or y` on optional strings: `None` and `""` are falsy. -/
def pyOr (a b : Option String) : Option String :=
  match a with
  | none => b
  | some s => if s = "" then b else some s

/-- `get_auth_token()`: identity context first (when an identity is attached
and has the attribute), then `os.getenv("TICKTICK_AUTH_TOKEN") or
os.getenv("AUTH_TOKEN")`. -/
def get_auth_token (identity : Option Identity)
    (ticktick_auth_token auth_token : Option String) : Option String :=
  match identity with
  | some i =>
    match i.access_token with
    | some t => some t
    | none => pyOr ticktick_auth_token auth_token
  | none => pyOr ticktick_auth_token auth_token

/-- Python truthiness of the resolved token: `None` and `""` both fail
`if not auth_token`. -/
def tokenFalsy : Option String → Bool
  | none => true
  | some s => s == ""

/-- Normalize a resolved token to `none` when falsy (`if not auth_token`). -/
def truthyToken : Option String → Option String
  | none => none
  | some s => if s = "" then none else some s

/-- The upstream result of one fetch call inside a tool's `try` block:
either the JSON list payload, a dict bearing an `error` key, or a raised
exception carrying a message. -/
inductive Fetched (α : Type) where
  | payload : List α → Fetched α
  | errorObj : String → Fetched α
  | exn : String → Fetched α
deriving DecidableEq, Repr

/-- The ambient process environment a tool call runs in: identity context,
the two token environment variables, the `TickTickClient` constructor
(`none` = constructor raised), the upstream fetch behaviours, and the
ISO-date parser (`datetime.fromisoformat(...).date()`, `none` = `ValueError`)
together with today's UTC date. -/
structure Env where
  identity : Option Identity
  ticktick_auth_token : Option String
  auth_token : Option String
  construct : String → Option Client
  fetch_projects : Fetched Project
  fetch_all : Fetched Task
  fetch_project_tasks : String → Fetched Task
  fromiso_date : String → Option Nat
  today : Nat

/-- `initialize_client()`: resolve a token; falsy token returns `False`
leaving the global unchanged; a constructor exception is caught and returns
`False`; on success the global is set and `True` returned. -/
def initialize_client (env : Env) (st : Option Client) : Bool × Option Client :=
  match truthyToken (get_auth_token env.identity env.ticktick_auth_token env.auth_token) with
  | none => (false, st)
  | some tok =>
    match env.construct tok with
    | some c => (true, some c)
    | none => (false, st)

/-- The shared prologue of every tool: `if not ticktick: if not
initialize_client(): ...` — returns the (possibly new) global client and
whether the tool may proceed. -/
def tool_init (env : Env) (st : Option Client) : Option Client × Bool :=
  match st with
  | some c => (some c, true)
  | none =>
    let r := initialize_client env none
    (r.2, r.1)

/-! ## Renderer (`format_task`, `format_project`) -/

/-- Priority label: `{1: "Low", 3: "Medium", 5: "High"}.get(p, f"Priority {p}")`. -/
def priorityText (p : Int) : String :=
  if p = 1 then "Low" else if p = 3 then "Medium" else if p = 5 then "High"
  else "Priority " ++ toString p

/-- `Status:` line of `format_task`: completed exactly at status code 2. -/
def statusLine (t : Task) : String :=
  "Status: " ++ (if t.status.getD 0 = 2 then "✓ Completed" else "□ Incomplete") ++ "\n"

/-- `Priority:` line, emitted only when `priority > 0`. -/
def priorityBlock (t : Task) : String :=
  let p := t.priority.getD 0
  if p > 0 then "Priority: " ++ priorityText p ++ "\n" else ""

/-- `Content:` line, emitted only when the field is present and truthy. -/
def contentBlock (t : Task) : String :=
  match t.content with
  | some s => if s = "" then "" else "Content: " ++ s ++ "\n"
  | none => ""

/-- `Due Date:` line, emitted only when the field is present and truthy. -/
def dueDateBlock (t : Task) : String :=
  match t.dueDate with
  | some s => if s = "" then "" else "Due Date: " ++ s ++ "\n"
  | none => ""

/-- `Start Date:` line, emitted only when the field is present and truthy. -/
def startDateBlock (t : Task) : String :=
  match t.startDate with
  | some s => if s = "" then "" else "Start Date: " ++ s ++ "\n"
  | none => ""

/-- `Tags:` line, emitted only when the tag list is nonempty. -/
def tagsBlock (t : Task) : String :=
  if t.tags.isEmpty then "" else "Tags: " ++ String.intercalate ", " t.tags ++ "\n"

/-- Check-state glyph of one subtask: checked exactly at status code 1. -/
def subtaskGlyph (it : Subtask) : String :=
  if it.status = some 1 then "✓" else "□"

/-- One numbered subtask line (`enumerate(items, 1)`). -/
def subtaskLine (i : Nat) (it : Subtask) : String :=
  toString i ++ ". [" ++ subtaskGlyph it ++ "] " ++ it.title.getD "No title" ++ "\n"

/-- Subtask sub-list, emitted only when `items` is nonempty. -/
def subtaskBlock (t : Task) : String :=
  if t.items.isEmpty then ""
  else "\nSubtasks (" ++ toString t.items.length ++ "):\n" ++
    String.join (t.items.enum.map fun p => subtaskLine (p.1 + 1) p.2)

/-- `format_task`: the concatenation of the unconditional header lines and
the conditional field blocks, in source order. -/
def format_task (t : Task) : String :=
  "Title: " ++ t.title.getD "No title" ++ "\n" ++
  "ID: " ++ t.id.getD "No ID" ++ "\n" ++
  "Project ID: " ++ t.projectId.getD "No project" ++ "\n" ++
  statusLine t ++ priorityBlock t ++ contentBlock t ++ dueDateBlock t ++
  startDateBlock t ++ tagsBlock t ++ subtaskBlock t

/-- `format_project`: name/id header plus conditional fields; `closed` is
keyed on key presence, not truthiness. -/
def format_project (p : Project) : String :=
  "Name: " ++ p.name.getD "No name" ++ "\n" ++
  "ID: " ++ p.id.getD "No ID" ++ "\n" ++
  (match p.color with | some s => if s = "" then "" else "Color: " ++ s ++ "\n" | none => "") ++
  (match p.viewMode with | some s => if s = "" then "" else "View Mode: " ++ s ++ "\n" | none => "") ++
  (match p.closed with | some b => "Closed: " ++ (if b then "Yes" else "No") ++ "\n" | none => "") ++
  (match p.kind with | some s => if s = "" then "" else "Kind: " ++ s ++ "\n" | none => "")

/-! ## Query pipeline: search-by-term and due-today -/

/-- Does `search_lower` occur in the lowercased title or content of `t`
(absent fields read as `''`)? -/
def title_content_match (slower : String) (t : Task) : Bool :=
  strContains (pyLower (t.title.getD "")) slower ||
  strContains (pyLower (t.content.getD "")) slower

/-- The inner subtask loop of `search_tasks`: scan `items` in order,
stopping at the first subtask whose lowercased title contains the term. -/
def subtask_scan (slower : String) : List Subtask → Bool
  | [] => false
  | it :: rest =>
    if strContains (pyLower (it.title.getD "")) slower then true
    else subtask_scan slower rest

/-- The filtering loop of `search_tasks`: append on title/content match and
`continue`; otherwise append on the first matching subtask and `break`. -/
def search_loop (slower : String) : List Task → List Task
  | [] => []
  | t :: rest =>
    if title_content_match slower t then t :: search_loop slower rest
    else if subtask_scan slower t.items then t :: search_loop slower rest
    else search_loop slower rest

/-- A task matches the (already lowercased) term: title, content, or some
subtask title contains it. -/
def task_matches (slower : String) (t : Task) : Bool :=
  title_content_match slower t ||
  t.items.any fun it => strContains (pyLower (it.title.getD "")) slower

/-- The matched set of `search_tasks(term)` over a fetched task list
(`search_lower = search_term.lower()`). -/
def search_filter (term : String) (tasks : List Task) : List Task :=
  search_loop (pyLower term) tasks

/-- The per-task test of `get_tasks_due_today`: due date present and truthy,
`fromisoformat` of the `Z`-normalized string succeeds (`ValueError` →
`continue`), and the date component equals today. -/
def due_today_pred (parse : String → Option Nat) (today : Nat) (t : Task) : Bool :=
  match t.dueDate with
  | none => false
  | some s =>
    if s = "" then false
    else
      match parse (replaceZ s) with
      | some d => d == today
      | none => false

/-- The `due_today` list built by `get_tasks_due_today` from a fetched list. -/
def dueTodayFilter (parse : String → Option Nat) (today : Nat)
    (tasks : List Task) : List Task :=
  tasks.filter (due_today_pred parse today)

/-! ## Tool surface -/

/-- The uniform initialization-failure reply of the five data tools. -/
def initFailMsg : String :=
  "Failed to initialize TickTick client. Please check your AUTH_TOKEN environment variable."

/-- The initialization-failure reply of `test_ticktick_connection`. -/
def testInitFailMsg : String :=
  "❌ Failed to initialize TickTick client. Please check your AUTH_TOKEN environment variable."

/-- Numbered rendering of a task list (`Task {i}:` + `format_task`). -/
def renderTasks (tasks : List Task) : String :=
  String.join (tasks.enum.map fun p =>
    "Task " ++ toString (p.1 + 1) ++ ":\n" ++ format_task p.2 ++ "\n")

/-- Numbered rendering of a project list (`Project {i}:` + `format_project`). -/
def renderProjects (ps : List Project) : String :=
  String.join (ps.enum.map fun p =>
    "Project " ++ toString (p.1 + 1) ++ ":\n" ++ format_project p.2 ++ "\n")

/-- The `try` body of `get_projects` after a successful init. -/
def get_projects_body (env : Env) : String :=
  match env.fetch_projects with
  | .exn e => "Error getting projects: " ++ e
  | .errorObj e => "Error fetching projects: " ++ e
  | .payload ps =>
    if ps.isEmpty then "No projects found."
    else "Found " ++ toString ps.length ++ " projects:\n\n" ++ renderProjects ps

/-- Tool `get_projects`: returns the reply and the new global client state. -/
def get_projects (env : Env) (st : Option Client) : String × Option Client :=
  let r := tool_init env st
  (if r.2 then get_projects_body env else initFailMsg, r.1)

/-- The `try` body of `get_project_tasks` after a successful init. -/
def get_project_tasks_body (env : Env) (project_id : String) : String :=
  match env.fetch_project_tasks project_id with
  | .exn e => "Error getting project tasks: " ++ e
  | .errorObj e => "Error fetching tasks: " ++ e
  | .payload ts =>
    if ts.isEmpty then "No tasks found in project " ++ project_id ++ "."
    else "Found " ++ toString ts.length ++ " tasks in project " ++ project_id ++
      ":\n\n" ++ renderTasks ts

/-- Tool `get_project_tasks`. -/
def get_project_tasks (env : Env) (st : Option Client) (project_id : String) :
    String × Option Client :=
  let r := tool_init env st
  (if r.2 then get_project_tasks_body env project_id else initFailMsg, r.1)

/-- The `try` body of `get_all_tasks` after a successful init. -/
def get_all_tasks_body (env : Env) : String :=
  match env.fetch_all with
  | .exn e => "Error getting all tasks: " ++ e
  | .errorObj e => "Error fetching tasks: " ++ e
  | .payload ts =>
    if ts.isEmpty then "No tasks found."
    else "Found " ++ toString ts.length ++ " tasks:\n\n" ++ renderTasks ts

/-- Tool `get_all_tasks`. -/
def get_all_tasks (env : Env) (st : Option Client) : String × Option Client :=
  let r := tool_init env st
  (if r.2 then get_all_tasks_body env else initFailMsg, r.1)

/-- The `try` body of `search_tasks` after a successful init. -/
def search_tasks_body (env : Env) (search_term : String) : String :=
  match env.fetch_all with
  | .exn e => "Error searching tasks: " ++ e
  | .errorObj e => "Error fetching tasks: " ++ e
  | .payload ts =>
    let matching := search_filter search_term ts
    if matching.isEmpty then "No tasks found matching '" ++ search_term ++ "'."
    else "Found " ++ toString matching.length ++ " tasks matching '" ++
      search_term ++ "':\n\n" ++ renderTasks matching

/-- Tool `search_tasks`. -/
def search_tasks (env : Env) (st : Option Client) (search_term : String) :
    String × Option Client :=
  let r := tool_init env st
  (if r.2 then search_tasks_body env search_term else initFailMsg, r.1)

/-- The `try` body of `get_tasks_due_today` after a successful init. -/
def get_tasks_due_today_body (env : Env) : String :=
  match env.fetch_all with
  | .exn e => "Error getting tasks due today: " ++ e
  | .errorObj e => "Error fetching tasks: " ++ e
  | .payload ts =>
    let due := dueTodayFilter env.fromiso_date env.today ts
    if due.isEmpty then "No tasks are due today."
    else "Found " ++ toString due.length ++ " tasks due today:\n\n" ++ renderTasks due

/-- Tool `get_tasks_due_today`. -/
def get_tasks_due_today (env : Env) (st : Option Client) : String × Option Client :=
  let r := tool_init env st
  (if r.2 then get_tasks_due_today_body env else initFailMsg, r.1)

/-- Tool `ping`: needs no client and replies with a fixed literal. -/
def ping (_env : Env) (st : Option Client) : String × Option Client :=
  ("pong", st)

/-- The `try` body of `test_ticktick_connection` after a successful init. -/
def test_ticktick_connection_body (env : Env) : String :=
  match env.fetch_projects with
  | .exn e => "❌ TickTick connection failed: " ++ e
  | .errorObj e => "❌ TickTick API error: " ++ e
  | .payload ps =>
    "✅ TickTick connection successful! Found " ++ toString ps.length ++ " projects."

/-- Tool `test_ticktick_connection`. -/
def test_ticktick_connection (env : Env) (st : Option Client) :
    String × Option Client :=
  let r := tool_init env st
  (if r.2 then test_ticktick_connection_body env else testInitFailMsg, r.1)

/-! ## Sample inputs used to evaluate the development at concrete points -/

/-- An environment with no resolvable credential and trivial upstream. -/
def env0 : Env :=
  { identity := none, ticktick_auth_token := none, auth_token := none,
    construct := fun _ => none, fetch_projects := .payload [],
    fetch_all := .payload [], fetch_project_tasks := fun _ => .payload [],
    fromiso_date := fun _ => none, today := 0 }

/-- An environment whose primary environment variable carries a token and
whose client constructor succeeds. -/
def envTok : Env :=
  { identity := none, ticktick_auth_token := some "tok", auth_token := none,
    construct := fun s => some ⟨s⟩, fetch_projects := .payload [],
    fetch_all := .payload [], fetch_project_tasks := fun _ => .payload [],
    fromiso_date := fun _ => none, today := 0 }

/-- A task matched through its title. -/
def taskMeeting : Task :=
  { title := some "Meeting with Bob", id := some "t1", projectId := some "p1",
    status := some 0, priority := some 0, content := none, dueDate := none,
    startDate := none, tags := [], items := [] }

/-- A task matched only through a subtask title. -/
def taskSub : Task :=
  { title := some "Alpha", id := some "t2", projectId := some "p1",
    status := some 0, priority := none, content := none, dueDate := none,
    startDate := none, tags := [],
    items := [{ title := some "Subtask meet Bob", status := some 0 }] }

/-- A task whose due-date string does not parse. -/
def taskBad : Task :=
  { title := some "Call Bob", id := some "t3", projectId := none,
    status := none, priority := none, content := none,
    dueDate := some "not-a-date", startDate := none, tags := [], items := [] }

/-- A sample date parser: succeeds exactly on one normalized timestamp. -/
def parseW : String → Option Nat :=
  fun s => if s = "2026-10-12T08:00:00+00:00" then some 42 else none

/-! ## Helper lemmas on substring search -/

theorem chPre_append_self (n rest : List Char) : chPre n (n ++ rest) = true := by
  induction n with
  | nil => rfl
  | cons a as ih => simp [chPre, ih]

theorem chSub_nil_needle (l : List Char) : chSub [] l = true := by
  cases l <;> simp [chSub, chPre, List.isEmpty]

theorem chSub_append_self (n rest : List Char) : chSub n (n ++ rest) = true := by
  cases n with
  | nil => simpa using chSub_nil_needle rest
  | cons a as =>
    simp only [chSub, List.cons_append, Bool.or_eq_true]
    exact Or.inl (chPre_append_self (a :: as) rest)

theorem chPre_append_of (n l l₂ : List Char) (h : chPre n l = true) :
    chPre n (l ++ l₂) = true := by
  induction n generalizing l with
  | nil => rfl
  | cons a as ih =>
    cases l with
    | nil => simp [chPre] at h
    | cons b bs =>
      simp [chPre] at h ⊢
      exact ⟨h.1, ih bs h.2⟩

theorem chSub_append_of_left (n l₁ l₂ : List Char) (h : chSub n l₁ = true) :
    chSub n (l₁ ++ l₂) = true := by
  induction l₁ with
  | nil =>
    simp [chSub, List.isEmpty_iff] at h
    subst h
    exact chSub_nil_needle l₂
  | cons b bs ih =>
    simp [chSub] at h ⊢
    rcases h with h | h
    · exact Or.inl (chPre_append_of n (b :: bs) l₂ h)
    · exact Or.inr (ih h)

theorem chSub_append_of_right (n l₁ l₂ : List Char) (h : chSub n l₂ = true) :
    chSub n (l₁ ++ l₂) = true := by
  induction l₁ with
  | nil => simpa using h
  | cons b bs ih => simp [chSub, ih]

theorem strContains_refl (n : String) : strContains n n = true := by
  have h := chSub_append_self n.data []
  simpa [strContains] using h

theorem strContains_left (a b n : String) (h : strContains a n = true) :
    strContains (a ++ b) n = true := by
  have := chSub_append_of_left n.data a.data b.data h
  simpa [strContains, String.data_append] using this

theorem strContains_right (a b n : String) (h : strContains b n = true) :
    strContains (a ++ b) n = true := by
  have := chSub_append_of_right n.data a.data b.data h
  simpa [strContains, String.data_append] using this

theorem strContains_nil (hay : String) : strContains hay "" = true :=
  chSub_nil_needle hay.data

/-! ## Helper lemmas on the search and due-today pipelines -/

theorem subtask_scan_eq_any (slower : String) (its : List Subtask) :
    subtask_scan slower its =
      its.any (fun it => strContains (pyLower (it.title.getD "")) slower) := by
  induction its with
  | nil => rfl
  | cons it rest ih =>
    by_cases h : strContains (pyLower (it.title.getD "")) slower = true
    · simp [subtask_scan, h]
    · simp [subtask_scan, h, ih]

theorem search_loop_eq_filter (slower : String) (tasks : List Task) :
    search_loop slower tasks = tasks.filter (task_matches slower) := by
  induction tasks with
  | nil => rfl
  | cons t rest ih =>
    by_cases h1 : title_content_match slower t = true
    · simp [search_loop, h1, List.filter_cons, task_matches, ih]
    · by_cases h2 : subtask_scan slower t.items = true
      · have h2' := (subtask_scan_eq_any slower t.items) ▸ h2
        simp [search_loop, h1, h2, List.filter_cons, task_matches, h2', ih]
      · have h2' := (subtask_scan_eq_any slower t.items) ▸ h2
        simp [search_loop, h1, h2, List.filter_cons, task_matches, h2', ih]

/-! ## Helper lemmas on the due-today predicate -/

theorem due_today_pred_iff (parse : String → Option Nat) (today : Nat) (t : Task)
    (hp : parse (replaceZ "") = none) :
    due_today_pred parse today t = true ↔
      ∃ s, t.dueDate = some s ∧ ∃ d, parse (replaceZ s) = some d ∧ d = today := by
  unfold due_today_pred
  cases hdd : t.dueDate with
  | none => simp
  | some s =>
    by_cases hs : s = ""
    · subst hs
      simp [hp]
    · simp only [hs, if_false]
      cases hpp : parse (replaceZ s) with
      | none => simp [hpp]
      | some d => simp [hpp, beq_iff_eq]

theorem due_today_filter_drop (parse : String → Option Nat) (today : Nat)
    (bad : Task) (rest : List Task)
    (hbad : ∀ s, bad.dueDate = some s → parse (replaceZ s) = none) :
    dueTodayFilter parse today (bad :: rest) = dueTodayFilter parse today rest := by
  have hpred : due_today_pred parse today bad = false := by
    unfold due_today_pred
    cases hdd : bad.dueDate with
    | none => rfl
    | some s =>
      by_cases hs : s = ""
      · simp [hs]
      · simp [hs, hbad s hdd]
  unfold dueTodayFilter
  simp [List.filter_cons, hpred]

/-! ## Helper lemmas on initialization -/

theorem initialize_client_of_absent (env : Env) (st : Option Client)
    (h : truthyToken (get_auth_token env.identity env.ticktick_auth_token env.auth_token) = none) :
    initialize_client env st = (false, st) := by
  unfold initialize_client
  rw [h]

theorem initialize_client_of_construct_exn (env : Env) (st : Option Client) (tok : String)
    (h₁ : truthyToken (get_auth_token env.identity env.ticktick_auth_token env.auth_token) = some tok)
    (h₂ : env.construct tok = none) :
    initialize_client env st = (false, st) := by
  unfold initialize_client
  rw [h₁]
  show (match env.construct tok with
    | some c => (true, some c)
    | none => (false, st)) = (false, st)
  rw [h₂]

theorem initialize_client_of_construct_ok (env : Env) (st : Option Client) (tok : String) (c : Client)
    (h₁ : truthyToken (get_auth_token env.identity env.ticktick_auth_token env.auth_token) = some tok)
    (h₂ : env.construct tok = some c) :
    initialize_client env st = (true, some c) := by
  unfold initialize_client
  rw [h₁]
  show (match env.construct tok with
    | some c => (true, some c)
    | none => (false, st)) = (true, some c)
  rw [h₂]

theorem tool_init_none (env : Env) :
    tool_init env none = ((initialize_client env none).2, (initialize_client env none).1) :=
  rfl

/-! ## Claim theorems -/

/-- Claim C4: credential resolution tries the identity context first (its
token is returned whenever the identity carries one), otherwise falls back
to the primary then the secondary environment variable with Python `or`
semantics, and yields a falsy absent marker, without throwing, when every
source is empty. -/
theorem claim_c4_credential_order :
    (∀ (i : Identity) (e₁ e₂ : Option String) (t : String),
        i.access_token = some t → get_auth_token (some i) e₁ e₂ = some t) ∧
    (∀ e₁ e₂, get_auth_token none e₁ e₂ = pyOr e₁ e₂) ∧
    (∀ e₁ e₂, get_auth_token (some ⟨none⟩) e₁ e₂ = pyOr e₁ e₂) ∧
    (∀ (s : String) (e₂ : Option String), ¬ s = "" → pyOr (some s) e₂ = some s) ∧
    (∀ e₂, pyOr none e₂ = e₂) ∧
    (∀ e₂, pyOr (some "") e₂ = e₂) ∧
    (∀ e₁ e₂, (e₁ = none ∨ e₁ = some "") → (e₂ = none ∨ e₂ = some "") →
        tokenFalsy (get_auth_token none e₁ e₂) = true) := by
  refine ⟨?_, ?_, ?_, ?_, ?_, ?_, ?_⟩
  · intro i e₁ e₂ t h
    simp [get_auth_token, h]
  · intro e₁ e₂; rfl
  · intro e₁ e₂; rfl
  · intro s e₂ h; simp [pyOr, h]
  · intro e₂; rfl
  · intro e₂; simp [pyOr]
  · rintro e₁ e₂ (h₁ | h₁) (h₂ | h₂) <;> subst h₁ <;> subst h₂ <;> decide

/-- Witness for C4: the identity token wins over a set environment variable,
the primary environment variable wins over the secondary, and two empty
sources give the absent marker. -/
theorem claim_c4_witness :
    get_auth_token (some ⟨some "idtok"⟩) (some "envtok") none = some "idtok" ∧
    pyOr (some "envtok") (some "fallback") = some "envtok" ∧
    tokenFalsy (get_auth_token none none (some "")) = true :=
  ⟨claim_c4_credential_order.1 ⟨some "idtok"⟩ (some "envtok") none "idtok" rfl,
   claim_c4_credential_order.2.2.2.1 "envtok" (some "fallback") (by decide),
   claim_c4_credential_order.2.2.2.2.2.2 none (some "") (Or.inl rfl) (Or.inr rfl)⟩

/-- Claim C5: the client is a lazily created process-wide singleton — a call
that finds a client reuses it unchanged whatever the current environment,
a successful initialization installs a client that every later call reuses
unchanged, and a successful prologue always hands back a client. -/
theorem claim_c5_session_singleton :
    (∀ (env : Env) (c : Client), tool_init env (some c) = (some c, true)) ∧
    (∀ env : Env, (initialize_client env none).1 = true →
        ∃ c, (initialize_client env none).2 = some c ∧
          ∀ env₂ : Env, tool_init env₂ (some c) = (some c, true)) ∧
    (∀ (env : Env) (st : Option Client), (tool_init env st).2 = true →
        ∃ c, (tool_init env st).1 = some c) := by
  refine ⟨fun env c => rfl, ?_, ?_⟩
  · intro env h
    cases htok : truthyToken (get_auth_token env.identity env.ticktick_auth_token env.auth_token) with
    | none =>
      rw [initialize_client_of_absent env none htok] at h
      exact Bool.noConfusion h
    | some tok =>
      cases hc : env.construct tok with
      | none =>
        rw [initialize_client_of_construct_exn env none tok htok hc] at h
        exact Bool.noConfusion h
      | some c =>
        rw [initialize_client_of_construct_ok env none tok c htok hc]
        exact ⟨c, rfl, fun env₂ => rfl⟩
  · intro env st h
    cases st with
    | some c => exact ⟨c, rfl⟩
    | none =>
      rw [tool_init_none] at h ⊢
      cases htok : truthyToken (get_auth_token env.identity env.ticktick_auth_token env.auth_token) with
      | none =>
        rw [initialize_client_of_absent env none htok] at h
        exact Bool.noConfusion h
      | some tok =>
        cases hc : env.construct tok with
        | none =>
          rw [initialize_client_of_construct_exn env none tok htok hc] at h
          exact Bool.noConfusion h
        | some c =>
          rw [initialize_client_of_construct_ok env none tok c htok hc]
          exact ⟨c, rfl⟩

/-- Witness for C5: a successful initialization from the environment token
installs a client that every subsequent prologue returns unchanged. -/
theorem claim_c5_witness :
    ∃ c, (initialize_client envTok none).2 = some c ∧
      ∀ env₂ : Env, tool_init env₂ (some c) = (some c, true) :=
  claim_c5_session_singleton.2.1 envTok rfl

/-- Claim C6: search matching is case-insensitive — two search terms with the
same lowercasing produce the same matched list over every corpus. -/
theorem claim_c6_search_case_insensitive (t₁ t₂ : String) (tasks : List Task)
    (h : pyLower t₁ = pyLower t₂) :
    search_filter t₁ tasks = search_filter t₂ tasks := by
  unfold search_filter
  rw [h]

/-- Witness for C6: "MEET" and "meet" match the same tasks. -/
theorem claim_c6_witness :
    search_filter "MEET" [taskMeeting, taskSub] =
    search_filter "meet" [taskMeeting, taskSub] :=
  claim_c6_search_case_insensitive "MEET" "meet" [taskMeeting, taskSub] (by decide)

/-- Claim C7: a task is in the matched list exactly when the lowercased term
occurs in its lowercased title, lowercased content, or the lowercased title
of some subtask (absent fields read as empty strings), and a matching task
occurring once in the corpus appears exactly once in the result. -/
theorem claim_c7_search_match (term : String) (tasks : List Task) (t : Task) :
    (t ∈ search_filter term tasks ↔
      t ∈ tasks ∧ task_matches (pyLower term) t = true) ∧
    (tasks.count t = 1 → task_matches (pyLower term) t = true →
      (search_filter term tasks).count t = 1) := by
  constructor
  · rw [search_filter, search_loop_eq_filter]
    exact List.mem_filter
  · intro hcount hmatch
    rw [search_filter, search_loop_eq_filter, List.count_filter hmatch]
    exact hcount

/-- Witness for C7: a task whose title and content lack the term but whose
subtask title contains it is matched exactly once. -/
theorem claim_c7_witness :
    (search_filter "meet" [taskSub]).count taskSub = 1 :=
  (claim_c7_search_match "meet" [taskSub] taskSub).2 (by decide) (by decide)

/-- Claim C9: `format_task` renders a parent task as completed exactly at
status code 2 (anything else is incomplete), while a subtask line is checked
exactly at its own status code 1 — the asymmetry is preserved. -/
theorem claim_c9_status_asymmetry (t : Task) (st : Subtask) :
    (statusLine t = "Status: ✓ Completed\n" ↔ t.status.getD 0 = 2) ∧
    (statusLine t = "Status: □ Incomplete\n" ↔ ¬ t.status.getD 0 = 2) ∧
    (subtaskGlyph st = "✓" ↔ st.status = some 1) ∧
    (subtaskGlyph st = "□" ↔ ¬ st.status = some 1) := by
  refine ⟨?_, ?_, ?_, ?_⟩
  · by_cases h : t.status.getD 0 = 2 <;> simp [statusLine, h]
  · by_cases h : t.status.getD 0 = 2 <;> simp [statusLine, h]
  · by_cases h : st.status = some 1 <;> simp [subtaskGlyph, h]
  · by_cases h : st.status = some 1 <;> simp [subtaskGlyph, h]

/-- Claim C10: the empty search term matches every fetched task — the matched
list is the whole corpus, so searching "" coincides with listing all tasks. -/
theorem claim_c10_empty_term (tasks : List Task) :
    search_filter "" tasks = tasks := by
  unfold search_filter
  rw [show pyLower "" = "" from rfl]
  induction tasks with
  | nil => rfl
  | cons t rest ih =>
    have ht : title_content_match "" t = true := by
      unfold title_content_match
      simp [strContains_nil]
    simp [search_loop, ht, ih]

/-- Claim C8: the rendering of a task contains its title and identifier
verbatim (with the placeholders "No title" / "No ID" when missing), each
absent or empty optional field contributes nothing to the rendered text,
and the rendering is exactly the concatenation of the header lines and the
conditional field blocks. -/
theorem claim_c8_render_fields (t : Task) :
    strContains (format_task t) (t.title.getD "No title") = true ∧
    strContains (format_task t) (t.id.getD "No ID") = true ∧
    (t.priority.getD 0 ≤ 0 → priorityBlock t = "") ∧
    ((t.content = none ∨ t.content = some "") → contentBlock t = "") ∧
    ((t.dueDate = none ∨ t.dueDate = some "") → dueDateBlock t = "") ∧
    ((t.startDate = none ∨ t.startDate = some "") → startDateBlock t = "") ∧
    (t.tags = [] → tagsBlock t = "") ∧
    (t.items = [] → subtaskBlock t = "") ∧
    format_task t = "Title: " ++ t.title.getD "No title" ++ "\n" ++ "ID: " ++
      t.id.getD "No ID" ++ "\n" ++ "Project ID: " ++ t.projectId.getD "No project" ++
      "\n" ++ statusLine t ++ priorityBlock t ++ contentBlock t ++ dueDateBlock t ++
      startDateBlock t ++ tagsBlock t ++ subtaskBlock t := by
  refine ⟨?_, ?_, ?_, ?_, ?_, ?_, ?_, ?_, rfl⟩
  · unfold format_task
    iterate 14 apply strContains_left
    apply strContains_right
    exact strContains_refl _
  · unfold format_task
    iterate 11 apply strContains_left
    apply strContains_right
    exact strContains_refl _
  · intro h
    have h' : ¬ t.priority.getD 0 > 0 := not_lt.mpr h
    simp [priorityBlock, h']
  · rintro (h | h) <;> simp [contentBlock, h]
  · rintro (h | h) <;> simp [dueDateBlock, h]
  · rintro (h | h) <;> simp [startDateBlock, h]
  · intro h; simp [tagsBlock, h]
  · intro h; simp [subtaskBlock, h]

/-- Witness for C8 at a task with every optional field absent. -/
theorem claim_c8_witness :
    strContains (format_task taskMeeting) "Meeting with Bob" = true ∧
    contentBlock taskMeeting = "" ∧
    priorityBlock taskMeeting = "" ∧
    tagsBlock taskMeeting = "" ∧
    subtaskBlock taskMeeting = "" := by
  have h := claim_c8_render_fields taskMeeting
  exact ⟨h.1, h.2.2.2.1 (Or.inl rfl), h.2.2.1 (by decide),
    h.2.2.2.2.2.2.1 rfl, h.2.2.2.2.2.2.2.1 rfl⟩

/-- Claim C2: a fetched task is in the due-today list exactly when its due
date is present, the date parser succeeds on the `Z`-normalized string, and
the parsed date equals today; an unparsable due date is silently dropped —
it changes neither the filtered list nor the tool's reply. -/
theorem claim_c2_due_today (parse : String → Option Nat) (today : Nat)
    (tasks : List Task) (t : Task)
    (hp : parse (replaceZ "") = none) :
    (t ∈ dueTodayFilter parse today tasks ↔
      t ∈ tasks ∧ ∃ s, t.dueDate = some s ∧
        ∃ d, parse (replaceZ s) = some d ∧ d = today) ∧
    (∀ (bad : Task) (rest : List Task),
      (∀ s, bad.dueDate = some s → parse (replaceZ s) = none) →
      dueTodayFilter parse today (bad :: rest) = dueTodayFilter parse today rest) ∧
    (∀ env : Env, env.fromiso_date = parse → env.today = today →
      ∀ (bad : Task) (rest : List Task),
        (∀ s, bad.dueDate = some s → parse (replaceZ s) = none) →
        get_tasks_due_today_body { env with fetch_all := .payload (bad :: rest) } =
        get_tasks_due_today_body { env with fetch_all := .payload rest }) := by
  refine ⟨?_, fun bad rest hbad => due_today_filter_drop parse today bad rest hbad, ?_⟩
  · rw [dueTodayFilter, List.mem_filter, due_today_pred_iff parse today t hp]
  · intro env hpar htod bad rest hbad
    simp only [get_tasks_due_today_body]
    rw [hpar, htod, due_today_filter_drop parse today bad rest hbad]

/-- Witness for C2: a task due today (with a literal `Z` suffix) is kept, a
task with an unparsable due date is dropped without any error. -/
theorem claim_c2_witness :
    dueTodayFilter parseW 42 [taskBad] = dueTodayFilter parseW 42 [] :=
  (claim_c2_due_today parseW 42 [] taskBad (by decide)).2.1 taskBad []
    (by
      intro s hs
      simp only [taskBad] at hs
      cases hs
      decide)

/-- Claim C1 (amended): when no credential is resolvable (no identity
attached, both environment variables unset or empty) every data tool and
the connection test reply with their fixed initialization-failure string —
which contains "Failed to initialize" and carries no task data — while the
liveness probe `ping` replies with its fixed literal. -/
theorem claim_c1_no_credential (env : Env) (term pid : String)
    (hid : env.identity = none)
    (h₁ : env.ticktick_auth_token = none ∨ env.ticktick_auth_token = some "")
    (h₂ : env.auth_token = none ∨ env.auth_token = some "") :
    (get_projects env none).1 = initFailMsg ∧
    (get_project_tasks env none pid).1 = initFailMsg ∧
    (get_all_tasks env none).1 = initFailMsg ∧
    (search_tasks env none term).1 = initFailMsg ∧
    (get_tasks_due_today env none).1 = initFailMsg ∧
    (test_ticktick_connection env none).1 = testInitFailMsg ∧
    (ping env none).1 = "pong" ∧
    strContains initFailMsg "Failed to initialize" = true ∧
    strContains testInitFailMsg "Failed to initialize" = true := by
  have hinit : tool_init env none = (none, false) := by
    rcases h₁ with h₁ | h₁ <;> rcases h₂ with h₂ | h₂ <;>
      simp [tool_init, initialize_client, get_auth_token, hid, h₁, h₂, pyOr, truthyToken]
  refine ⟨?_, ?_, ?_, ?_, ?_, ?_, rfl, by decide, by decide⟩ <;>
    simp [get_projects, get_project_tasks, get_all_tasks, search_tasks,
      get_tasks_due_today, test_ticktick_connection, hinit]

/-- Counterexample to C1 as stated: `ping` is an exposed tool, yet with no
resolvable credential it replies "pong", a string that does not contain
"Failed to initialize". -/
theorem claim_c1_ping_counterexample :
    (ping env0 none).1 = "pong" ∧
    strContains (ping env0 none).1 "Failed to initialize" = false := by
  exact ⟨rfl, by decide⟩

/-- Witness for C1 at the concrete credential-free environment. -/
theorem claim_c1_witness :
    (search_tasks env0 none "x").1 = initFailMsg ∧
    (get_projects env0 none).1 = initFailMsg ∧
    (test_ticktick_connection env0 none).1 = testInitFailMsg := by
  have h := claim_c1_no_credential env0 "x" "p1" rfl (Or.inl rfl) (Or.inl rfl)
  exact ⟨h.2.2.2.1, h.1, h.2.2.2.2.2.1⟩

/-- Claim C3: when the upstream `getAllTasks` reply is an object carrying an
`error` key, every tool consuming it replies with exactly the fetch-error
string around the upstream message — the message is contained in the reply
and no task entry accompanies it. -/
theorem claim_c3_upstream_error (env : Env) (c : Client) (term msg : String)
    (h : env.fetch_all = Fetched.errorObj msg) :
    (search_tasks env (some c) term).1 = "Error fetching tasks: " ++ msg ∧
    strContains (search_tasks env (some c) term).1 msg = true ∧
    (get_all_tasks env (some c)).1 = "Error fetching tasks: " ++ msg ∧
    (get_tasks_due_today env (some c)).1 = "Error fetching tasks: " ++ msg := by
  have h₁ : (search_tasks env (some c) term).1 = "Error fetching tasks: " ++ msg := by
    simp [search_tasks, tool_init, search_tasks_body, h]
  refine ⟨h₁, ?_, ?_, ?_⟩
  · rw [h₁]
    exact strContains_right _ _ _ (strContains_refl msg)
  · simp [get_all_tasks, tool_init, get_all_tasks_body, h]
  · simp [get_tasks_due_today, tool_init, get_tasks_due_today_body, h]

/-- Witness for C3: a "rate limited" upstream error object is echoed inside
the search reply. -/
theorem claim_c3_witness :
    strContains
      (search_tasks { env0 with fetch_all := Fetched.errorObj "rate limited" }
        (some ⟨"tok"⟩) "x").1 "rate limited" = true :=
  (claim_c3_upstream_error { env0 with fetch_all := Fetched.errorObj "rate limited" }
    ⟨"tok"⟩ "x" "rate limited" rfl).2.1

end TickTick
